import Mathlib

/-!
Verification development for the PieTracker backend (`backend/main.py`).

Python dictionaries are modelled as insertion-ordered association lists
over `String` keys (`alookup` = `d.get(k)` / `k in d`, `dinsert` =
`d[k] = v`, `derase` = `del d[k]`).  Exceptions are modelled by explicit
result constructors; an HTTP handler returns a result value together
with the updated global state it mutates.
-/

set_option autoImplicit false

namespace PieTracker

/-- `str.strip()`: remove leading and trailing whitespace.  Implemented
over the underlying character list so that it evaluates by kernel
reduction on literals. -/
def pyStrip (s : String) : String :=
  String.mk (((s.data.dropWhile Char.isWhitespace).reverse.dropWhile Char.isWhitespace).reverse)

/-- `str.lower()`. -/
def pyLower (s : String) : String :=
  String.mk (s.data.map Char.toLower)

/-- `d.get(k)`: first binding of key `k` in an insertion-ordered dict. -/
def alookup {α : Type} : List (String × α) → String → Option α
  | [], _ => none
  | (k, v) :: rest, key => if k = key then some v else alookup rest key

/-- `d[k] = v`: replace the binding of `k` in place, or append it at the end
(Python dicts preserve insertion order). -/
def dinsert {α : Type} (key : String) (v : α) : List (String × α) → List (String × α)
  | [] => [(key, v)]
  | (k, w) :: rest => if k = key then (key, v) :: rest else (k, w) :: dinsert key v rest

/-- `del d[k]`: remove the binding of `k` (call sites guard on presence). -/
def derase {α : Type} (key : String) : List (String × α) → List (String × α)
  | [] => []
  | (k, w) :: rest => if k = key then rest else (k, w) :: derase key rest

/-! ## Token model

`create_access_token` signs a payload `{"sub": …, "exp": …}` with the
process `SECRET_KEY` (HS256 via `python-jose`).  A bearer token is
modelled by the signed contents together with the key it was signed
under; `jwt.decode(token, secret, [HS256])` succeeds exactly when the
signing key matches the secret and the expiry instant has not passed,
and raises `JWTError` (modelled by `none`) otherwise — on a bad
signature, an expired `exp` claim, or a structurally malformed token. -/

inductive Token where
  | malformed
  | signed (key : String) (sub : Option String) (exp : Nat)
deriving DecidableEq

/-- `jwt.decode(token, secret, algorithms=[ALGORITHM])` followed by
`payload.get("sub")`: `none` models `JWTError`, `some sub` the decoded
subject claim (itself absent when the payload has no `"sub"`). -/
def jwt_decode (secret : String) (now : Nat) : Token → Option (Option String)
  | .malformed => none
  | .signed key sub exp => if key = secret ∧ now < exp then some sub else none

/-- The `Authorization` request header: either a value whose lowercase form
starts with `"bearer "`, carrying the token after the space, or some other
non-bearer value. -/
inductive AuthHeader where
  | bearer (t : Token)
  | notBearer
deriving DecidableEq

/-- `get_user_id` (`backend/main.py:184`): resolve the tenant id from the
JWT if a valid one is presented, else from the legacy `X-User-Id` header,
else the fixed anonymous id. -/
def get_user_id (secret : String) (now : Nat)
    (x_user_id : Option String) (authorization : Option AuthHeader) : String :=
  let fallback : String :=
    match x_user_id with
    | some x => if pyStrip x ≠ "" then pyStrip x else "public-anon-user"
    | none => "public-anon-user"
  match authorization with
  | some (.bearer t) =>
    match jwt_decode secret now t with
    | some (some sub) => if pyStrip sub ≠ "" then pyStrip sub else fallback
    | _ => fallback
  | _ => fallback

/-! ## User store

A user record is a Python dict; the keys the program ever reads are
modelled as optional fields (`none` = key absent).  `signup` never sets a
`"name"` key, while `/auth/me` subscripts `user["name"]`; keeping absence
explicit lets the model reproduce the resulting `KeyError`.
`users_db` is the global id-keyed store. -/

structure UserRecord where
  id : Option String := none
  username : Option String := none
  email : Option String := none
  password_hash : Option String := none
  created_at : Option String := none
  role : Option String := none
  is_active : Option Bool := none
  last_login : Option String := none
  name : Option String := none
deriving DecidableEq

abbrev UsersDb := List (String × UserRecord)

/-- `get_user_by_email` (`main.py:68`): linear scan over `users_db.values()`
comparing the stored `"email"` (absent compares unequal, as `None == str`
is false) against the lowercased, stripped query. -/
def get_user_by_email (users : UsersDb) (email : String) : Option UserRecord :=
  let email_l := pyStrip (pyLower email)
  (users.find? (fun p => p.2.email == some email_l)).map Prod.snd

/-- `get_user_by_username` (`main.py:72`) restricted to the store entry: the
dict returned by the Python generator aliases the store's value, so the key
is carried along to express later in-place mutation of that entry. -/
def get_user_by_username_entry (users : UsersDb) (username : String) :
    Option (String × UserRecord) :=
  let username_l := pyStrip (pyLower username)
  users.find? (fun p => pyLower (p.2.username.getD "") == username_l)

def get_user_by_username (users : UsersDb) (username : String) : Option UserRecord :=
  (get_user_by_username_entry users username).map Prod.snd

/-! ## Password hasher

`pwd_context.hash` / `pwd_context.verify` are passlib library calls; they
are modelled as opaque parameters.  The underlying `verify` may raise (on
unrecognised or malformed hash strings), so its model returns
`Except String Bool`; `hash` always returns a string. -/

/-- `verify_password` (`main.py:56`): delegate to the passlib verifier and
turn any raised exception into `false` (`try/except Exception`). -/
def verify_password (pcVerify : String → String → Except String Bool)
    (password hashed : String) : Bool :=
  match pcVerify password hashed with
  | .ok b => b
  | .error _ => false

/-- `authenticate_user` (`main.py:76`), on store entries (see
`get_user_by_username_entry`): `u.get("password_hash", "")` defaults to `""`
when the key is absent. -/
def authenticate_user (pcVerify : String → String → Except String Bool)
    (users : UsersDb) (username password : String) : Option (String × UserRecord) :=
  match get_user_by_username_entry users username with
  | none => none
  | some (k, user) =>
    if verify_password pcVerify password (user.password_hash.getD "") then some (k, user)
    else none

/-- `is_admin_user` (`main.py:552`). -/
def is_admin_user (user : UserRecord) : Bool :=
  decide (user.role = some "admin" ∨ user.role = some "super_admin" ∨
    user.email = some "admin@pietracker.com" ∨ user.id = some "admin-super-user")

/-! ## Acting-user resolution for admin routes -/

inductive CurrentUserResult where
  | ok (user : UserRecord)
  | unauthorized401
  | forbidden403
deriving DecidableEq

/-- `get_current_user` (`main.py:84`): the `oauth2_scheme` dependency
already rejects a missing or non-bearer `Authorization` header with 401
(`OAuth2PasswordBearer` with `auto_error=True`), modelled by the `none` /
`notBearer` cases.  Decode failure, a missing `sub` claim, and an unknown
user id all raise 401; a resolved but deactivated user raises 403. -/
def get_current_user (secret : String) (now : Nat) (users : UsersDb)
    (authorization : Option AuthHeader) : CurrentUserResult :=
  match authorization with
  | some (.bearer t) =>
    match jwt_decode secret now t with
    | none => .unauthorized401
    | some none => .unauthorized401
    | some (some user_id) =>
      match alookup users user_id with
      | none => .unauthorized401
      | some user =>
        if user.is_active.getD true then .ok user else .forbidden403
  | _ => .unauthorized401

/-! ## `/auth/me` -/

inductive MeResult where
  | profile (id email nm created_at : String)
  | unauthorized401 (detail : String)
  | internalError500
deriving DecidableEq

/-- `me` (`main.py:491`): after decoding, the handler builds
`{k: user[k] for k in ["id", "email", "name", "created_at"]}`; a `KeyError`
on any absent key is not a `JWTError`, escapes the `try`, and becomes an
HTTP 500 (`internalError500`).  An empty or missing `sub` claim is rejected
with 401 (`if not user_id`). -/
def me (secret : String) (now : Nat) (users : UsersDb)
    (authorization : Option AuthHeader) : MeResult :=
  match authorization with
  | some (.bearer t) =>
    match jwt_decode secret now t with
    | none => .unauthorized401 "Invalid token"
    | some sub =>
      match sub with
      | none => .unauthorized401 "Invalid token"
      | some user_id =>
        if user_id = "" then .unauthorized401 "Invalid token"
        else
          match alookup users user_id with
          | none => .unauthorized401 "User not found"
          | some user =>
            match user.id, user.email, user.name, user.created_at with
            | some i, some e, some n, some c => .profile i e n c
            | _, _, _, _ => .internalError500
  | _ => .unauthorized401 "Not authenticated"

/-! ## `/auth/signup` and `/auth/login`

`uuid.uuid4()` and `datetime.utcnow()` are environment inputs, passed in
as the `uid` / `nowIso` parameters; `hash_password` is the opaque passlib
`pwd_context.hash`, passed as `hashPw`.  Pydantic validates the request
body before either handler runs (`SignupRequest`: username 3–50 chars,
`EmailStr`, password 6–256 chars; `LoginRequest`: both fields 1–256
chars); requests failing validation are rejected with 422 and never reach
these functions.  The `create_access_token` call and the `AuthResponse`
wrapper are represented by the returned `UserOut` projection of the user
record; the minted token (subject = the user's id, ttl 7 days) plays no
role in the claims below and is not carried in the result. -/

inductive SignupResult where
  | ok (user : UserRecord)
  | badRequest400 (detail : String)
deriving DecidableEq

/-- `signup` (`main.py:398`). -/
def signup (hashPw : String → String) (uid nowIso : String) (users : UsersDb)
    (username email password : String) : SignupResult × UsersDb :=
  let email := pyStrip (pyLower email)
  let username := pyStrip (pyLower username)
  if (get_user_by_email users email).isSome then
    (.badRequest400 "Email already registered", users)
  else if (get_user_by_username users username).isSome then
    (.badRequest400 "Username already taken", users)
  else if password.length > 256 then
    (.badRequest400 "Password must be 256 characters or fewer", users)
  else
    let new_user : UserRecord :=
      { id := some uid, username := some username, email := some email,
        password_hash := some (hashPw password), created_at := some nowIso,
        role := some (if email = "admin@pietracker.com" then "admin" else "user"),
        is_active := some true, last_login := none, name := none }
    (.ok new_user, dinsert uid new_user users)

inductive LoginResult where
  | ok (userId username email created_at message : String)
  | unauthorized401 (detail : String)
  | forbidden403 (detail : String)
  | internalError500
deriving DecidableEq

/-- The `UserOut(**{k: user[k] for k in ["id", "username", "email",
"created_at"]})` projection; `none` models the `KeyError` raised when a
key is absent. -/
def userOutFields (u : UserRecord) : Option (String × String × String × String) :=
  match u.id, u.username, u.email, u.created_at with
  | some i, some n, some e, some c => some (i, n, e, c)
  | _, _, _, _ => none

/-- `login` (`main.py:436`): the reserved `admin`/`admin123` pair
unconditionally (re)writes the fixed `admin-super-user` record — active,
`super_admin` — and succeeds before any store lookup or `is_active` check;
otherwise credentials are checked, a deactivated account is rejected with
403 after a successful password check, and on success `last_login` is
updated in place on the aliased store entry. -/
def login (hashPw : String → String) (pcVerify : String → String → Except String Bool)
    (nowIso : String) (users : UsersDb) (username password : String) :
    LoginResult × UsersDb :=
  let username := pyStrip (pyLower username)
  if password.length > 256 then (.unauthorized401 "Invalid username or password", users)
  else if username = "admin" ∧ password = "admin123" then
    let admin_user : UserRecord :=
      { id := some "admin-super-user", username := some "admin",
        email := some "admin@pietracker.com", password_hash := some (hashPw "admin123"),
        created_at := some nowIso, role := some "super_admin",
        is_active := some true, last_login := some nowIso, name := none }
    (.ok "admin-super-user" "admin" "admin@pietracker.com" nowIso "Admin login successful",
      dinsert "admin-super-user" admin_user users)
  else
    match authenticate_user pcVerify users username password with
    | none => (.unauthorized401 "Invalid username or password", users)
    | some (k, user) =>
      if user.is_active.getD true then
        let user' := { user with last_login := some nowIso }
        match userOutFields user' with
        | some (i, n, e, c) => (.ok i n e c "Login successful", dinsert k user' users)
        | none => (.internalError500, dinsert k user' users)
      else (.forbidden403 "Account is deactivated", users)

/-! ## `/auth/reset-password` -/

/-- A record of `PASSWORD_RESET_TOKENS`.  The stored `"exp"` ISO string is
modelled by its `datetime.fromisoformat` outcome: `none` when parsing
raises, `some t` for the instant it denotes. -/
structure ResetRecord where
  user_id : String
  exp : Option Nat
deriving DecidableEq

abbrev ResetTokens := List (String × ResetRecord)

inductive ResetOutcome where
  | ok
  | badRequest400 (detail : String)
  | keyError500
deriving DecidableEq

/-- `reset_password` (`main.py:522`).  On the expired path the handler
deletes the token and raises `HTTPException(400)` inside the `try`; the
`except Exception` clause catches that very exception and its first
statement `del PASSWORD_RESET_TOKENS[req.token]` re-deletes the
already-removed key, so a `KeyError` escapes the handler (HTTP 500).  A
malformed expiry string takes the same `except` clause but with the token
still present, so its `del` succeeds and the 400 is re-raised. -/
def reset_password (hashPw : String → String) (now : Nat)
    (tokens : ResetTokens) (users : UsersDb) (token new_password : String) :
    ResetOutcome × ResetTokens × UsersDb :=
  match alookup tokens token with
  | none => (.badRequest400 "Invalid or expired token", tokens, users)
  | some record =>
    match record.exp with
    | none => (.badRequest400 "Invalid or expired token", derase token tokens, users)
    | some exp_dt =>
      if exp_dt < now then (.keyError500, derase token tokens, users)
      else
        match alookup users record.user_id with
        | none => (.badRequest400 "Invalid or expired token", derase token tokens, users)
        | some user =>
          if new_password.length > 256 then
            (.badRequest400 "Password must be 256 characters or fewer", tokens, users)
          else
            let user' := { user with password_hash := some (hashPw new_password) }
            (.ok, derase token tokens, dinsert record.user_id user' users)

/-! ## Category namespaces and expenses -/

abbrev CatMap := List (String × String)

abbrev CatsDb := List (String × CatMap)

def DEFAULT_CATEGORIES : List String := ["Food", "Transportation", "Shopping", "Entertainment"]

/-- `ensure_user_category_init` (`main.py:204`): a user with an existing
entry (even `{}`) is left untouched; otherwise, when a legacy map exists,
`dict(legacy)` clones it into a fresh entry for this user. -/
def ensure_user_category_init (user_id : String) (cats : CatsDb) : CatsDb :=
  if (alookup cats user_id).isSome then cats
  else
    match alookup cats "__legacy__" with
    | some legacy => dinsert user_id legacy cats
    | none => cats

/-- `get_user_custom_categories` (`main.py:215`): initialise, then
`categories_db.get(user_id, {})`. -/
def get_user_custom_categories (user_id : String) (cats : CatsDb) : CatsDb × CatMap :=
  let cats := ensure_user_category_init user_id cats
  (cats, (alookup cats user_id).getD [])

/-- `set_user_category` (`main.py:219`). -/
def set_user_category (user_id nm color : String) (cats : CatsDb) : CatsDb :=
  let cats := if (alookup cats user_id).isNone then dinsert user_id [] cats else cats
  dinsert user_id (dinsert nm color ((alookup cats user_id).getD [])) cats

/-- `delete_user_category` (`main.py:225`). -/
def delete_user_category (user_id nm : String) (cats : CatsDb) : CatsDb :=
  match alookup cats user_id with
  | some m => if (alookup m nm).isSome then dinsert user_id (derase nm m) cats else cats
  | none => cats

/-- An entry of `expenses_db`; only the fields the modelled handlers read
are kept (`user_id` and `category` are read with `dict.get`, hence
optional). -/
structure Expense where
  id : String
  user_id : Option String
  category : Option String
  date : String
deriving DecidableEq

inductive DeleteCategoryResult where
  | badRequest400 (detail : String)
  | okMsg (msg : String)
deriving DecidableEq

/-- `delete_category` (`main.py:333`): default categories cannot be
deleted; an unknown custom category silently succeeds (after the read has
run the migrator); otherwise the entry is removed from the user's
namespace and every expense of this user in that category is dropped. -/
def delete_category (category_name user_id : String)
    (cats : CatsDb) (expenses : List Expense) :
    DeleteCategoryResult × CatsDb × List Expense :=
  if category_name ∈ DEFAULT_CATEGORIES then
    (.badRequest400 "Cannot delete default category", cats, expenses)
  else
    match get_user_custom_categories user_id cats with
    | (cats1, existing_custom) =>
      if (alookup existing_custom category_name).isNone then
        (.okMsg "Category not found for user", cats1, expenses)
      else
        let cats2 := delete_user_category user_id category_name cats1
        let expenses' := expenses.filter
          (fun e => ¬ (e.user_id = some user_id ∧ e.category = some category_name))
        (.okMsg "Category deleted for user", cats2, expenses')

/-! ## Concrete data for the closed witnesses and counterexamples -/

/-- A stand-in for `pwd_context.hash`: prefix the plaintext. -/
def hashCat : String → String := fun p => String.append "hashed:" p

/-- A stand-in for `pwd_context.verify` matching `hashCat`: succeeds and
reports whether the hash is the one `hashCat` produces. -/
def verifyCat : String → String → Except String Bool :=
  fun p h => .ok (h == String.append "hashed:" p)

/-- The record `signup` builds for username `alice`, email
`alice@example.com`, password `secret1`, uuid `uid-1` at time `T0`. -/
def aliceUser : UserRecord where
  id := some "uid-1"
  username := some "alice"
  email := some "alice@example.com"
  password_hash := some "hashed:secret1"
  created_at := some "T0"
  role := some "user"
  is_active := some true
  last_login := none

/-- The record `signup` builds when the submitted email is
`Admin@PieTracker.com` (stored lowercased, role `admin`). -/
def adminMailUser : UserRecord where
  id := some "uid-1"
  username := some "alice"
  email := some "admin@pietracker.com"
  password_hash := some "hashed:secret1"
  created_at := some "T0"
  role := some "admin"
  is_active := some true
  last_login := none

/-- A stored user for the reset-password scenario. -/
def ursulaUser : UserRecord where
  id := some "u1"
  username := some "ursula"
  email := some "u1@example.com"
  password_hash := some "hashed:oldpw"
  created_at := some "T0"
  role := some "user"
  is_active := some true
  last_login := none

/-- A deactivated ordinary user whose password is `pw123`. -/
def bobInactiveUser : UserRecord where
  id := some "u-bob"
  username := some "bob"
  email := some "bob@example.com"
  password_hash := some "hashed:pw123"
  created_at := some "T0"
  role := some "user"
  is_active := some false
  last_login := none

/-- The fixed super-admin record after an admin has deactivated it
(`POST /admin/users/admin-super-user/deactivate`); its password is still
`admin123`. -/
def superAdminInactive : UserRecord where
  id := some "admin-super-user"
  username := some "admin"
  email := some "admin@pietracker.com"
  password_hash := some "hashed:admin123"
  created_at := some "T0"
  role := some "super_admin"
  is_active := some false
  last_login := none

def coffeeExpenseU1 : Expense := ⟨"e1", some "u1", some "Coffee", "2024-01-01"⟩

def teaExpenseU1 : Expense := ⟨"e2", some "u1", some "Tea", "2024-01-02"⟩

def coffeeExpenseU2 : Expense := ⟨"e3", some "u2", some "Coffee", "2024-01-03"⟩

theorem alookup_dinsert_self {α : Type} (d : List (String × α)) (k : String) (v : α) :
    alookup (dinsert k v d) k = some v := by
  induction d with
  | nil => simp [dinsert, alookup]
  | cons hd tl ih =>
    obtain ⟨k', w⟩ := hd
    by_cases h : k' = k
    · simp [dinsert, h, alookup]
    · simp [dinsert, h, alookup, ih]

theorem alookup_dinsert_ne {α : Type} (d : List (String × α)) (k k' : String) (v : α)
    (h : k' ≠ k) : alookup (dinsert k v d) k' = alookup d k' := by
  induction d with
  | nil => simp [dinsert, alookup, Ne.symm h]
  | cons hd tl ih =>
    obtain ⟨k₀, w⟩ := hd
    by_cases h0 : k₀ = k
    · subst h0
      simp [dinsert, alookup, Ne.symm h]
    · simp [dinsert, alookup, h0, ih]

theorem alookup_derase_ne {α : Type} (d : List (String × α)) (k k' : String)
    (h : k' ≠ k) : alookup (derase k d) k' = alookup d k' := by
  induction d with
  | nil => simp [derase]
  | cons hd tl ih =>
    obtain ⟨k₀, w⟩ := hd
    by_cases h0 : k₀ = k
    · subst h0
      simp [derase, alookup, Ne.symm h]
    · simp [derase, alookup, h0, ih]

/-! ## Shared frame lemmas for the category namespace -/

theorem alookup_ensure_ne (cats : CatsDb) (u v : String) (h : v ≠ u) :
    alookup (ensure_user_category_init u cats) v = alookup cats v := by
  unfold ensure_user_category_init
  by_cases h1 : (alookup cats u).isSome
  · simp [h1]
  · simp only [h1, if_neg, Bool.false_eq_true, not_false_eq_true, if_false]
    cases hleg : alookup cats "__legacy__" with
    | none => rfl
    | some legacy => exact alookup_dinsert_ne cats u v legacy h

theorem alookup_delete_user_category_ne (cats : CatsDb) (u v nm : String) (h : v ≠ u) :
    alookup (delete_user_category u nm cats) v = alookup cats v := by
  unfold delete_user_category
  cases hm : alookup cats u with
  | none => rfl
  | some m =>
    by_cases hc : (alookup m nm).isSome
    · simp only [hc, if_true]
      exact alookup_dinsert_ne cats u v (derase nm m) h
    · simp [hc]

theorem alookup_set_user_category_ne (cats : CatsDb) (u v nm color : String) (h : v ≠ u) :
    alookup (set_user_category u nm color cats) v = alookup cats v := by
  unfold set_user_category
  by_cases h1 : (alookup cats u).isNone
  · simp only [h1, if_true]
    rw [alookup_dinsert_ne _ _ _ _ h, alookup_dinsert_ne _ _ _ _ h]
  · simp only [h1, Bool.false_eq_true, if_false]
    exact alookup_dinsert_ne cats u v _ h

theorem get_user_custom_categories_congr (cats1 cats2 : CatsDb) (u : String)
    (hu : alookup cats1 u = alookup cats2 u)
    (hleg : alookup cats1 "__legacy__" = alookup cats2 "__legacy__") :
    (get_user_custom_categories u cats1).2 = (get_user_custom_categories u cats2).2 := by
  unfold get_user_custom_categories ensure_user_category_init
  cases hm : alookup cats1 u with
  | some m => simp [hm, ← hu, hm]
  | none =>
    rw [hm] at hu
    simp only [hm, ← hu, Option.isSome_none, Bool.false_eq_true, if_false, hleg]
    cases hl : alookup cats2 "__legacy__" with
    | none => simp [hm, ← hu]
    | some legacy =>
      simp [alookup_dinsert_self]

/-- C1: a bearer token that decodes with a non-empty subject `A` resolves
the request to `A`, whatever the legacy `X-User-Id` header `B` says: the
valid token takes precedence and `B` is never used. -/
theorem get_user_id_bearer_precedence (secret : String) (now : Nat) (t : Token)
    (A B : String) (hdec : jwt_decode secret now t = some (some A))
    (hA : pyStrip A = A) (hne : A ≠ "") :
    get_user_id secret now (some B) (some (.bearer t)) = A ∧
    (B ≠ A → get_user_id secret now (some B) (some (.bearer t)) ≠ B) := by
  have h1 : get_user_id secret now (some B) (some (.bearer t)) = A := by
    simp [get_user_id, hdec, hA, hne]
  exact ⟨h1, fun hBA => by rw [h1]; exact fun hc => hBA hc.symm⟩

/-- C1 witness: a token signed with the right key for subject `"alice"`
wins over an `X-User-Id: bob` header. -/
theorem get_user_id_bearer_precedence_witness :
    get_user_id "s" 0 (some "bob") (some (.bearer (.signed "s" (some "alice") 10))) = "alice" ∧
    ("bob" ≠ "alice" →
      get_user_id "s" 0 (some "bob") (some (.bearer (.signed "s" (some "alice") 10))) ≠ "bob") :=
  get_user_id_bearer_precedence "s" 0 (.signed "s" (some "alice") 10) "alice" "bob"
    (by decide) (by decide) (by decide)

/-- C9: `verify_password` delegates to the passlib verifier inside
`try/except Exception`: whenever the underlying verifier raises, the
result is `false`, and when it returns a boolean, that boolean is passed
through — the embedding returns `Bool` on every input, so no exception
ever propagates. -/
theorem verify_password_total (pcVerify : String → String → Except String Bool)
    (password hashed : String) :
    (∀ e, pcVerify password hashed = .error e →
      verify_password pcVerify password hashed = false) ∧
    (∀ b, pcVerify password hashed = .ok b →
      verify_password pcVerify password hashed = b) := by
  constructor
  · intro e he
    simp [verify_password, he]
  · intro b hb
    simp [verify_password, hb]

/-- C9 witness: a verifier that raises on a garbage hash yields `false`;
one that returns `true` is passed through. -/
theorem verify_password_total_witness :
    verify_password (fun _ _ => .error "malformed hash") "pw" "garbage" = false ∧
    verify_password (fun _ _ => .ok true) "pw" "goodhash" = true :=
  ⟨(verify_password_total (fun _ _ => .error "malformed hash") "pw" "garbage").1
      "malformed hash" rfl,
    (verify_password_total (fun _ _ => .ok true) "pw" "goodhash").2 true rfl⟩

/-- C5: once a user id `u` has a namespace entry `m` (even `[]`), the
migrator leaves the store untouched and returns `m` itself; after an
intervening `set_user_category`, a second read reflects the mutation and
still performs no re-copy of the legacy map. -/
theorem categories_no_recopy_after_init (cats : CatsDb) (u nm color : String)
    (m : CatMap) (hm : alookup cats u = some m) :
    ensure_user_category_init u cats = cats ∧
    get_user_custom_categories u cats = (cats, m) ∧
    get_user_custom_categories u (set_user_category u nm color cats) =
      (set_user_category u nm color cats, dinsert nm color m) := by
  have h1 : ensure_user_category_init u cats = cats := by
    simp [ensure_user_category_init, hm]
  have hset : set_user_category u nm color cats = dinsert u (dinsert nm color m) cats := by
    simp [set_user_category, hm]
  refine ⟨h1, ?_, ?_⟩
  · simp [get_user_custom_categories, h1, hm]
  · rw [hset]
    have hl := alookup_dinsert_self cats u (dinsert nm color m)
    simp [get_user_custom_categories, ensure_user_category_init, hl]

/-- C5 witness: with the empty entry `{}` for `"alice"` and a legacy map
present, nothing is re-copied and the intervening mutation is visible on
the second read. -/
theorem categories_no_recopy_after_init_witness :
    ensure_user_category_init "alice"
        [("__legacy__", [("Food", "#111")]), ("alice", [])] =
      [("__legacy__", [("Food", "#111")]), ("alice", [])] ∧
    get_user_custom_categories "alice"
        [("__legacy__", [("Food", "#111")]), ("alice", [])] =
      ([("__legacy__", [("Food", "#111")]), ("alice", [])], []) ∧
    get_user_custom_categories "alice"
        (set_user_category "alice" "Coffee" "#222"
          [("__legacy__", [("Food", "#111")]), ("alice", [])]) =
      (set_user_category "alice" "Coffee" "#222"
          [("__legacy__", [("Food", "#111")]), ("alice", [])],
        dinsert "Coffee" "#222" []) :=
  categories_no_recopy_after_init
    [("__legacy__", [("Food", "#111")]), ("alice", [])] "alice" "Coffee" "#222" [] rfl

/-- C4: any successful signup stores role `"admin"` exactly when the
submitted email, lowercased and stripped, is `"admin@pietracker.com"`, and
role `"user"` otherwise; a user created with that email is therefore
classified as an administrator by `is_admin_user` with no other
credential. -/
theorem signup_role_assignment (hashPw : String → String) (uid nowIso : String)
    (users : UsersDb) (username email password : String) (u : UserRecord) (db' : UsersDb)
    (hok : signup hashPw uid nowIso users username email password = (.ok u, db')) :
    u.role = some (if pyStrip (pyLower email) = "admin@pietracker.com"
      then "admin" else "user") ∧
    (pyStrip (pyLower email) = "admin@pietracker.com" → is_admin_user u = true) := by
  by_cases h1 : (get_user_by_email users (pyStrip (pyLower email))).isSome
  · simp [signup, h1] at hok
  · by_cases h2 : (get_user_by_username users (pyStrip (pyLower username))).isSome
    · simp [signup, h1, h2] at hok
    · by_cases h3 : password.length > 256
      · simp [signup, h1, h2, h3] at hok
      · simp [signup, h1, h2, h3, Prod.ext_iff] at hok
        obtain ⟨h4, h5⟩ := hok
        subst h4
        refine ⟨rfl, ?_⟩
        intro hadm
        simp [is_admin_user, hadm]

/-- C4 witness: signing up with email `Admin@PieTracker.com` on an empty
store yields role `"admin"` and `is_admin_user` accepts the record. -/
theorem signup_role_assignment_witness :
    adminMailUser.role =
      some (if pyStrip (pyLower "Admin@PieTracker.com") = "admin@pietracker.com"
        then "admin" else "user") ∧
    (pyStrip (pyLower "Admin@PieTracker.com") = "admin@pietracker.com" →
      is_admin_user adminMailUser = true) :=
  signup_role_assignment hashCat "uid-1" "T0" []
    "alice" "Admin@PieTracker.com" "secret1" adminMailUser
    [("uid-1", adminMailUser)] rfl

/-- C8: the acting-user resolution for admin routes fails closed: a
missing header, a non-bearer header, a token that does not decode (bad
signature or expired), a missing `sub` claim, and an unknown subject all
yield 401; and any successful resolution can only come from a decodable
token whose subject names a stored user — there is no fallback to the
legacy header or the anonymous identity. -/
theorem get_current_user_fail_closed (secret : String) (now : Nat) (users : UsersDb) :
    get_current_user secret now users none = .unauthorized401 ∧
    get_current_user secret now users (some .notBearer) = .unauthorized401 ∧
    (∀ t, jwt_decode secret now t = none →
      get_current_user secret now users (some (.bearer t)) = .unauthorized401) ∧
    (∀ key sub exp, ¬ (key = secret ∧ now < exp) →
      get_current_user secret now users (some (.bearer (.signed key sub exp))) =
        .unauthorized401) ∧
    (∀ t, jwt_decode secret now t = some none →
      get_current_user secret now users (some (.bearer t)) = .unauthorized401) ∧
    (∀ t sub, jwt_decode secret now t = some (some sub) → alookup users sub = none →
      get_current_user secret now users (some (.bearer t)) = .unauthorized401) ∧
    (∀ a u, get_current_user secret now users a = .ok u →
      ∃ t sub, a = some (.bearer t) ∧ jwt_decode secret now t = some (some sub) ∧
        alookup users sub = some u) := by
  refine ⟨rfl, rfl, ?_, ?_, ?_, ?_, ?_⟩
  · intro t ht
    simp [get_current_user, ht]
  · intro key sub exp h
    simp [get_current_user, jwt_decode, h]
  · intro t ht
    simp [get_current_user, ht]
  · intro t sub ht hu
    simp [get_current_user, ht, hu]
  · intro a u hok
    match a with
    | none => simp [get_current_user] at hok
    | some .notBearer => simp [get_current_user] at hok
    | some (.bearer t) =>
      cases hdec : jwt_decode secret now t with
      | none => simp [get_current_user, hdec] at hok
      | some s =>
        cases s with
        | none => simp [get_current_user, hdec] at hok
        | some sub =>
          cases hu : alookup users sub with
          | none => simp [get_current_user, hdec, hu] at hok
          | some user =>
            by_cases hact : user.is_active.getD true
            · have huser : user = u := by
                simp [get_current_user, hdec, hu, hact] at hok
                exact hok
              exact ⟨t, sub, rfl, hdec, by rw [hu, huser]⟩
            · simp [get_current_user, hdec, hu, hact] at hok

/-- C8 witness: an absent token and an expired token (signed with the
right key but with `exp` in the past) are both rejected with 401. -/
theorem get_current_user_fail_closed_witness :
    get_current_user "s" 10 [] none = .unauthorized401 ∧
    get_current_user "s" 10 [] (some (.bearer (.signed "s" (some "alice") 5))) =
      .unauthorized401 :=
  ⟨(get_current_user_fail_closed "s" 10 []).1,
    (get_current_user_fail_closed "s" 10 []).2.2.2.1 "s" (some "alice") 5 (by decide)⟩

/-- C2 (code bug): consuming a reset token whose stored expiry has passed
does delete the token record and leaves the stored password hash
unchanged, but the response is an uncaught `KeyError` (HTTP 500), not the
400 `InvalidOrExpired` the spec states: the handler deletes the token and
raises `HTTPException(400)` inside the `try`, and the `except Exception`
clause catches that exception and re-runs `del` on the now-absent key. -/
theorem reset_password_expired_token_keyerror :
    (50 : Nat) < 100 ∧
    reset_password hashCat 100 [("tok-1", ⟨"u1", some 50⟩)] [("u1", ursulaUser)]
        "tok-1" "newpass123" =
      (.keyError500, [], [("u1", ursulaUser)]) :=
  ⟨by decide, rfl⟩

/-- C3 (code bug): a validly signed, unexpired token whose subject is a
user created by `signup` does not make `GET /auth/me` succeed: the
handler subscripts `user["name"]`, a key `signup` never writes, so the
request dies with a `KeyError` (HTTP 500) instead of returning the
profile (the repository's own `auth_smoke_test.py` expects 200 here). -/
theorem me_signup_user_internal_error :
    (signup hashCat "uid-1" "T0" [] "alice" "alice@example.com" "secret1").1 =
      .ok aliceUser ∧
    jwt_decode "s" 0 (.signed "s" (some "uid-1") 10) = some (some "uid-1") ∧
    alookup (signup hashCat "uid-1" "T0" [] "alice" "alice@example.com" "secret1").2
        "uid-1" = some aliceUser ∧
    aliceUser.name = none ∧
    me "s" 0 (signup hashCat "uid-1" "T0" [] "alice" "alice@example.com" "secret1").2
        (some (.bearer (.signed "s" (some "uid-1") 10))) = .internalError500 :=
  ⟨rfl, rfl, rfl, rfl, rfl⟩

theorem alookup_eq_none {α : Type} (d : List (String × α)) (k : String)
    (h : k ∉ d.map Prod.fst) : alookup d k = none := by
  induction d with
  | nil => rfl
  | cons hd tl ih =>
    obtain ⟨k₀, v⟩ := hd
    simp only [List.map_cons, List.mem_cons] at h
    push_neg at h
    simp [alookup, Ne.symm h.1, ih h.2]

theorem alookup_derase_self {α : Type} (d : List (String × α)) (k : String)
    (hnodup : (d.map Prod.fst).Nodup) : alookup (derase k d) k = none := by
  induction d with
  | nil => rfl
  | cons hd tl ih =>
    obtain ⟨k₀, v⟩ := hd
    simp only [List.map_cons, List.nodup_cons] at hnodup
    by_cases h0 : k₀ = k
    · subst h0
      simp only [derase, if_pos rfl]
      exact alookup_eq_none tl k₀ hnodup.1
    · simp [derase, alookup, h0, ih hnodup.2]

/-- C6 counterexample: the reserved legacy key is itself an acceptable
tenant key (`get_user_id` uses any non-empty `X-User-Id` value verbatim),
and mutating that "user's" namespace mutates the legacy map: deleting
`Coffee` as user `__legacy__` changes the legacy entry, refuting the
claim for the distinct pair A = `__legacy__`, B = `bob`. -/
theorem category_isolation_legacy_key_cex :
    ("__legacy__" : String) ≠ "bob" ∧
    alookup [("__legacy__", [("Coffee", "#222")])] "__legacy__" =
      some [("Coffee", "#222")] ∧
    delete_user_category "__legacy__" "Coffee" [("__legacy__", [("Coffee", "#222")])] =
      [("__legacy__", [])] ∧
    alookup (delete_user_category "__legacy__" "Coffee"
        [("__legacy__", [("Coffee", "#222")])]) "__legacy__" ≠
      alookup [("__legacy__", [("Coffee", "#222")])] "__legacy__" :=
  ⟨by decide, rfl, rfl, by decide⟩

/-- C6 amended: for distinct user ids A ≠ B with A not the reserved
legacy key `__legacy__`, reading A's namespace (which may clone the
legacy map, by value) and then mutating it via `delete_user_category` or
`set_user_category` never alters B's entry nor the legacy map, and a
subsequent read by B yields the same map as before A's activity. -/
theorem category_isolation_frame (cats : CatsDb) (A B nm color : String)
    (hAB : A ≠ B) (hA : A ≠ "__legacy__") :
    alookup (delete_user_category A nm (get_user_custom_categories A cats).1)
        "__legacy__" = alookup cats "__legacy__" ∧
    alookup (delete_user_category A nm (get_user_custom_categories A cats).1) B =
      alookup cats B ∧
    (get_user_custom_categories B
        (delete_user_category A nm (get_user_custom_categories A cats).1)).2 =
      (get_user_custom_categories B cats).2 ∧
    alookup (set_user_category A nm color (get_user_custom_categories A cats).1)
        "__legacy__" = alookup cats "__legacy__" ∧
    alookup (set_user_category A nm color (get_user_custom_categories A cats).1) B =
      alookup cats B := by
  have hBA : B ≠ A := Ne.symm hAB
  have hLA : "__legacy__" ≠ A := Ne.symm hA
  have h1 : (get_user_custom_categories A cats).1 = ensure_user_category_init A cats := rfl
  have e1 : alookup (get_user_custom_categories A cats).1 "__legacy__" =
      alookup cats "__legacy__" := by
    rw [h1]
    exact alookup_ensure_ne cats A "__legacy__" hLA
  have e2 : alookup (get_user_custom_categories A cats).1 B = alookup cats B := by
    rw [h1]
    exact alookup_ensure_ne cats A B hBA
  have d1 : alookup (delete_user_category A nm (get_user_custom_categories A cats).1)
      "__legacy__" = alookup cats "__legacy__" := by
    rw [alookup_delete_user_category_ne _ A "__legacy__" nm hLA]
    exact e1
  have d2 : alookup (delete_user_category A nm (get_user_custom_categories A cats).1) B =
      alookup cats B := by
    rw [alookup_delete_user_category_ne _ A B nm hBA]
    exact e2
  refine ⟨d1, d2, get_user_custom_categories_congr _ _ B d2 d1, ?_, ?_⟩
  · rw [alookup_set_user_category_ne _ A "__legacy__" nm color hLA]
    exact e1
  · rw [alookup_set_user_category_ne _ A B nm color hBA]
    exact e2

/-- C6 witness: the claim's own scenario — seed legacy `{Food: #111}`;
alice reads her namespace (cloning the legacy map) and deletes `Food`;
afterwards the legacy entry is intact and bob's read still shows
`Food: #111`. -/
theorem category_isolation_frame_witness :
    ("alice" : String) ≠ "bob" ∧ ("alice" : String) ≠ "__legacy__" ∧
    (get_user_custom_categories "bob"
        (delete_user_category "alice" "Food"
          (get_user_custom_categories "alice" [("__legacy__", [("Food", "#111")])]).1)).2 =
      (get_user_custom_categories "bob" [("__legacy__", [("Food", "#111")])]).2 ∧
    (get_user_custom_categories "bob"
        (delete_user_category "alice" "Food"
          (get_user_custom_categories "alice" [("__legacy__", [("Food", "#111")])]).1)).2 =
      [("Food", "#111")] ∧
    alookup (delete_user_category "alice" "Food"
        (get_user_custom_categories "alice" [("__legacy__", [("Food", "#111")])]).1)
      "__legacy__" = some [("Food", "#111")] :=
  ⟨by decide, by decide,
    (category_isolation_frame [("__legacy__", [("Food", "#111")])] "alice" "bob" "Food"
      "#fff" (by decide) (by decide)).2.2.1,
    by decide, by decide⟩

/-- C7 counterexample: with the fixed super-admin account deactivated and
its correct password `admin123` presented, login succeeds through the
reserved-credential branch (which runs before any store lookup or
`is_active` check) instead of returning 403. -/
theorem login_admin_backdoor_inactive_cex :
    superAdminInactive.is_active = some false ∧
    verify_password verifyCat "admin123" (superAdminInactive.password_hash.getD "") =
      true ∧
    (login hashCat verifyCat "T1" [("admin-super-user", superAdminInactive)]
        "admin" "admin123").1 =
      .ok "admin-super-user" "admin" "admin@pietracker.com" "T1"
        "Admin login successful" ∧
    (login hashCat verifyCat "T1" [("admin-super-user", superAdminInactive)]
        "admin" "admin123").1 ≠ .forbidden403 "Account is deactivated" :=
  ⟨rfl, rfl, rfl, by decide⟩

/-- C7 amended: outside the reserved `admin`/`admin123` credential pair
(which unconditionally succeeds and rewrites the super-admin account),
for any request that passes body validation (password ≤ 256 chars), login
returns 403 whenever the credential verifies against a deactivated
account, and returns 401 exactly when the username is unknown or the
password does not verify. -/
theorem login_inactive_forbidden (hashPw : String → String)
    (pcVerify : String → String → Except String Bool) (nowIso : String)
    (users : UsersDb) (username password : String)
    (hadm : ¬ (pyStrip (pyLower username) = "admin" ∧ password = "admin123"))
    (hlen : password.length ≤ 256) :
    (∀ k user,
      authenticate_user pcVerify users (pyStrip (pyLower username)) password =
        some (k, user) →
      user.is_active = some false →
      (login hashPw pcVerify nowIso users username password).1 =
        .forbidden403 "Account is deactivated") ∧
    ((∃ d, (login hashPw pcVerify nowIso users username password).1 =
        .unauthorized401 d) ↔
      authenticate_user pcVerify users (pyStrip (pyLower username)) password = none) := by
  have hlen' : ¬ password.length > 256 := by omega
  constructor
  · intro k user hauth hinact
    simp [login, hlen', hadm, hauth, hinact]
  · cases hauth : authenticate_user pcVerify users (pyStrip (pyLower username)) password with
    | none => simp [login, hlen', hadm, hauth]
    | some p =>
      obtain ⟨k, user⟩ := p
      by_cases hact : user.is_active.getD true
      · cases hout : userOutFields { user with last_login := some nowIso } with
        | none => simp [login, hlen', hadm, hauth, hact, hout]
        | some q =>
          obtain ⟨i, n, e, c⟩ := q
          simp [login, hlen', hadm, hauth, hact, hout]
      · simp [login, hlen', hadm, hauth, hact]

/-- C7 witness: bob's account is deactivated; logging in with bob's
correct password returns 403, not 401. -/
theorem login_inactive_forbidden_witness :
    (login hashCat verifyCat "T1" [("u-bob", bobInactiveUser)] "Bob" "pw123").1 =
      .forbidden403 "Account is deactivated" :=
  (login_inactive_forbidden hashCat verifyCat "T1" [("u-bob", bobInactiveUser)]
      "Bob" "pw123" (by decide) (by decide)).1 "u-bob" bobInactiveUser (by decide) rfl

/-- C10: deleting a non-default category `c` present in user `u`'s
namespace removes `c` from `u`'s namespace and drops exactly `u`'s
expenses in category `c`; every other user's namespace entry, every
expense of another user, and every expense of `u` in another category
survive. -/
theorem delete_category_effects (cats : CatsDb) (expenses : List Expense)
    (u c col : String) (m : CatMap) (res : DeleteCategoryResult)
    (cats' : CatsDb) (exps' : List Expense)
    (hdef : c ∉ DEFAULT_CATEGORIES) (hm : alookup cats u = some m)
    (hcol : alookup m c = some col) (hnodup : (m.map Prod.fst).Nodup)
    (hrun : delete_category c u cats expenses = (res, cats', exps')) :
    res = .okMsg "Category deleted for user" ∧
    alookup cats' u = some (derase c m) ∧
    alookup (derase c m) c = none ∧
    (∀ v, v ≠ u → alookup cats' v = alookup cats v) ∧
    exps' = expenses.filter (fun e => ¬ (e.user_id = some u ∧ e.category = some c)) ∧
    (∀ e, e ∈ exps' → ¬ (e.user_id = some u ∧ e.category = some c)) ∧
    (∀ e, e ∈ expenses → ¬ (e.user_id = some u ∧ e.category = some c) → e ∈ exps') := by
  have hens : ensure_user_category_init u cats = cats := by
    simp [ensure_user_category_init, hm]
  have hcomp : delete_category c u cats expenses =
      (.okMsg "Category deleted for user", dinsert u (derase c m) cats,
        expenses.filter (fun e => ¬ (e.user_id = some u ∧ e.category = some c))) := by
    simp [delete_category, hdef, get_user_custom_categories, hens, hm,
      delete_user_category, hcol]
  rw [hcomp] at hrun
  injection hrun with hr1 hrest
  injection hrest with hr2 hr3
  subst hr1
  subst hr2
  subst hr3
  refine ⟨rfl, alookup_dinsert_self cats u (derase c m),
    alookup_derase_self m c hnodup, ?_, rfl, ?_, ?_⟩
  · intro v hv
    exact alookup_dinsert_ne cats u v (derase c m) hv
  · intro e he
    rw [List.mem_filter] at he
    have h2 := he.2
    simp only [decide_eq_true_eq] at h2
    exact h2
  · intro e he hne
    rw [List.mem_filter]
    refine ⟨he, ?_⟩
    simp only [decide_eq_true_eq]
    exact hne

/-- C10 witness: user `u1` deletes custom category `Coffee`; their Coffee
expense disappears, their Tea expense and `u2`'s Coffee expense survive,
and `u2`'s namespace entry is untouched. -/
theorem delete_category_effects_witness :
    alookup (delete_category "Coffee" "u1"
        [("u1", [("Coffee", "#222")]), ("u2", [("Coffee", "#333")])]
        [coffeeExpenseU1, teaExpenseU1, coffeeExpenseU2]).2.1 "u2" =
      alookup [("u1", [("Coffee", "#222")]), ("u2", [("Coffee", "#333")])] "u2" ∧
    (delete_category "Coffee" "u1"
        [("u1", [("Coffee", "#222")]), ("u2", [("Coffee", "#333")])]
        [coffeeExpenseU1, teaExpenseU1, coffeeExpenseU2]).2.2 =
      [coffeeExpenseU1, teaExpenseU1, coffeeExpenseU2].filter
        (fun e => ¬ (e.user_id = some "u1" ∧ e.category = some "Coffee")) ∧
    alookup (derase "Coffee" [("Coffee", "#222")]) "Coffee" = none := by
  have h := delete_category_effects
    [("u1", [("Coffee", "#222")]), ("u2", [("Coffee", "#333")])]
    [coffeeExpenseU1, teaExpenseU1, coffeeExpenseU2]
    "u1" "Coffee" "#222" [("Coffee", "#222")]
    (delete_category "Coffee" "u1"
      [("u1", [("Coffee", "#222")]), ("u2", [("Coffee", "#333")])]
      [coffeeExpenseU1, teaExpenseU1, coffeeExpenseU2]).1
    (delete_category "Coffee" "u1"
      [("u1", [("Coffee", "#222")]), ("u2", [("Coffee", "#333")])]
      [coffeeExpenseU1, teaExpenseU1, coffeeExpenseU2]).2.1
    (delete_category "Coffee" "u1"
      [("u1", [("Coffee", "#222")]), ("u2", [("Coffee", "#333")])]
      [coffeeExpenseU1, teaExpenseU1, coffeeExpenseU2]).2.2
    (by decide) rfl rfl (by decide) rfl
  exact ⟨h.2.2.2.1 "u2" (by decide), h.2.2.2.2.1, h.2.2.1⟩

end PieTracker
